import Mathlib

/-!
Verification of the GST tax-computation and financial-aggregation core of the
accbooks accounting application.

Monetary values are modelled as exact rationals (`ℚ`); the source performs the
same arithmetic expressions in JavaScript numbers, and every claim under test
is stated "within 1e-9 or decimal-exact", which the rational model captures
exactly. Dates are modelled as integer day ordinals (`Int`): the source
compares 'yyyy-MM-dd' strings / SQL dates, whose ordering the ordinal
preserves, and only the ordering is ever used.
-/

namespace AccBooks

/-- Supply type of a transaction, as the string enum
`'Intra-State' | 'Inter-State' | 'Not Applicable'` in the source
(`place_of_supply_type` on invoices, `place_of_supply_type_for_purchase` on
expenses). -/
inductive SupplyType
  | intraState
  | interState
  | notApplicable
deriving DecidableEq, Repr

/-- Invoice status enum `'Draft' | 'Sent' | 'Paid' | 'Overdue'`. -/
inductive InvoiceStatus
  | draft
  | sent
  | paid
  | overdue
deriving DecidableEq, Repr

/-- Account type enum `'Income' | 'Expense' | 'Asset' | 'Liability'`. -/
inductive AccountType
  | income
  | expense
  | asset
  | liability
deriving DecidableEq, Repr

/-- A raw invoice line item as entered in the form
(`items` array of the zod schema in CreateEditInvoice.tsx). -/
structure ItemInput where
  itemDescription : String
  quantity : ℚ
  rate : ℚ
  gstRatePercentage : ℚ
deriving DecidableEq, Repr

/-- A computed invoice line item, as built inside `onSubmit` of
CreateEditInvoice.tsx and inserted into the `invoice_items` table. -/
structure InvoiceItem where
  itemDescription : String
  quantity : ℚ
  rate : ℚ
  gstRatePercentage : ℚ
  itemTotalAmount : ℚ
  cgstAmount : ℚ
  sgstAmount : ℚ
  igstAmount : ℚ
  itemGstTotal : ℚ
deriving DecidableEq, Repr

/-- The per-item GST computation of `onSubmit` in CreateEditInvoice.tsx
(lines 137-152): `itemTotal = quantity * rate`,
`gstAmount = itemTotal * gstRate / 100`, then CGST/SGST = gstAmount/2 under
Intra-State, IGST = gstAmount under Inter-State. -/
def computeInvoiceItem (supply : SupplyType) (it : ItemInput) : InvoiceItem :=
  let itemTotal := it.quantity * it.rate
  let gstAmount := itemTotal * it.gstRatePercentage / 100
  { itemDescription := it.itemDescription
    quantity := it.quantity
    rate := it.rate
    gstRatePercentage := it.gstRatePercentage
    itemTotalAmount := itemTotal
    cgstAmount := if supply = SupplyType.intraState then gstAmount / 2 else 0
    sgstAmount := if supply = SupplyType.intraState then gstAmount / 2 else 0
    igstAmount := if supply = SupplyType.interState then gstAmount else 0
    itemGstTotal := gstAmount }

/-- `data.items.map(...)` in `onSubmit` of CreateEditInvoice.tsx. -/
def computeItems (supply : SupplyType) (items : List ItemInput) : List InvoiceItem :=
  items.map (computeInvoiceItem supply)

/-- The invoice-level totals computed in `onSubmit` of CreateEditInvoice.tsx
(lines 155-157). -/
structure InvoiceTotals where
  subTotal : ℚ
  totalGst : ℚ
  totalAmount : ℚ
deriving DecidableEq, Repr

/-- `subTotal = items.reduce((sum, item) => sum + item.item_total_amount, 0)`,
`totalGst = items.reduce((sum, item) => sum + item.item_gst_total, 0)`,
`totalAmount = subTotal + totalGst` (CreateEditInvoice.tsx lines 155-157). -/
def invoiceTotals (supply : SupplyType) (items : List ItemInput) : InvoiceTotals :=
  let citems := computeItems supply items
  let subTotal := citems.foldl (fun sum it => sum + it.itemTotalAmount) 0
  let totalGst := citems.foldl (fun sum it => sum + it.itemGstTotal) 0
  { subTotal := subTotal
    totalGst := totalGst
    totalAmount := subTotal + totalGst }

/-- Result record of `calculateGSTAmounts` in CreateEditExpense.tsx. -/
structure ExpenseGSTResult where
  gstPaidAmount : ℚ
  cgstInputCredit : ℚ
  sgstInputCredit : ℚ
  igstInputCredit : ℚ
  totalAmount : ℚ
deriving DecidableEq, Repr

/-- `calculateGSTAmounts` of CreateEditExpense.tsx (lines 113-143): the
purchase-side GST splitter. The source tests `'Not Applicable'` first, then
`'Intra-State'`, and falls through to the Inter-State branch. -/
def calculateGSTAmounts (amountBeforeGST gstRate : ℚ)
    (supplyType : SupplyType) : ExpenseGSTResult :=
  let gstAmount := amountBeforeGST * gstRate / 100
  if supplyType = SupplyType.notApplicable then
    { gstPaidAmount := 0
      cgstInputCredit := 0
      sgstInputCredit := 0
      igstInputCredit := 0
      totalAmount := amountBeforeGST }
  else if supplyType = SupplyType.intraState then
    { gstPaidAmount := gstAmount
      cgstInputCredit := gstAmount / 2
      sgstInputCredit := gstAmount / 2
      igstInputCredit := 0
      totalAmount := amountBeforeGST + gstAmount }
  else
    { gstPaidAmount := gstAmount
      cgstInputCredit := 0
      sgstInputCredit := 0
      igstInputCredit := gstAmount
      totalAmount := amountBeforeGST + gstAmount }

/-- A row of the `invoices` table, restricted to the columns the claims
touch. Optional text columns (`customer_gstin`, `notes`) and the optional
`due_date` carry the `x || null` translation of the source. -/
structure StoredInvoice where
  companyId : Nat
  customerName : String
  customerGstin : Option String
  invoiceNumber : String
  invoiceDate : Int
  dueDate : Option Int
  placeOfSupplyType : SupplyType
  notes : Option String
  subTotalAmount : ℚ
  totalGstAmount : ℚ
  totalInvoiceAmount : ℚ
  status : InvoiceStatus
deriving DecidableEq, Repr

/-- The validated form values (`FormValues`) of CreateEditInvoice.tsx.
`invoice_date` is a required field, modelled as an `Int` ordinal;
`due_date` is optional (an empty string becomes `none`). -/
structure InvoiceFormValues where
  customerName : String
  customerGstin : String
  invoiceNumber : String
  invoiceDate : Int
  dueDate : Option Int
  placeOfSupplyType : SupplyType
  notes : String
  items : List ItemInput
deriving DecidableEq, Repr

/-- `x || null` on a string field of the update/insert payloads. -/
def strOrNull (s : String) : Option String :=
  if s = "" then none else some s

/-- The `.update({...})` payload applied to an existing invoice row in
`onSubmit` of CreateEditInvoice.tsx (lines 161-178): every listed column is
overwritten, the totals are those freshly computed from `data.items`, and
`status` is not in the payload, so the stored row keeps it. -/
def saveInvoiceUpdate (old : StoredInvoice) (data : InvoiceFormValues) :
    StoredInvoice :=
  let t := invoiceTotals data.placeOfSupplyType data.items
  { old with
    customerName := data.customerName
    customerGstin := strOrNull data.customerGstin
    invoiceNumber := data.invoiceNumber
    invoiceDate := data.invoiceDate
    dueDate := data.dueDate
    placeOfSupplyType := data.placeOfSupplyType
    notes := strOrNull data.notes
    subTotalAmount := t.subTotal
    totalGstAmount := t.totalGst
    totalInvoiceAmount := t.totalAmount }

/-- The `.insert([{...}])` payload for a new invoice in `onSubmit` of
CreateEditInvoice.tsx (lines 201-216): totals freshly computed from
`data.items` and `status: 'Draft'`. -/
def saveInvoiceCreate (companyId : Nat) (data : InvoiceFormValues) :
    StoredInvoice :=
  let t := invoiceTotals data.placeOfSupplyType data.items
  { companyId := companyId
    customerName := data.customerName
    customerGstin := strOrNull data.customerGstin
    invoiceNumber := data.invoiceNumber
    invoiceDate := data.invoiceDate
    dueDate := data.dueDate
    placeOfSupplyType := data.placeOfSupplyType
    notes := strOrNull data.notes
    subTotalAmount := t.subTotal
    totalGstAmount := t.totalGst
    totalInvoiceAmount := t.totalAmount
    status := InvoiceStatus.draft }

/-- `[0-9]` character class. -/
def isDigitChar (c : Char) : Bool :=
  '0' ≤ c && c ≤ '9'

/-- `[A-Z]` character class. -/
def isUpperChar (c : Char) : Bool :=
  'A' ≤ c && c ≤ 'Z'

/-- The GSTIN regex of the zod schema,
`^[0-9]{2}[A-Z]{5}[0-9]{4}[A-Z]{1}[1-9A-Z]{1}Z[0-9A-Z]{1}$`. -/
def gstinMatch (s : String) : Bool :=
  match s.data with
  | [c0, c1, c2, c3, c4, c5, c6, c7, c8, c9, c10, c11, c12, c13, c14] =>
      isDigitChar c0 && isDigitChar c1 &&
      isUpperChar c2 && isUpperChar c3 && isUpperChar c4 &&
      isUpperChar c5 && isUpperChar c6 &&
      isDigitChar c7 && isDigitChar c8 && isDigitChar c9 && isDigitChar c10 &&
      isUpperChar c11 &&
      (('1' ≤ c12 && c12 ≤ '9') || isUpperChar c12) &&
      c13 = 'Z' &&
      (isDigitChar c14 || isUpperChar c14)
  | _ => false

/-- Validation of one entry of the `items` array in the zod schema of
CreateEditInvoice.tsx: non-empty description, `quantity ≥ 0.01`, `rate ≥ 0`,
`0 ≤ gst_rate_percentage ≤ 28`. -/
def itemValid (it : ItemInput) : Bool :=
  1 ≤ it.itemDescription.length &&
  decide ((1 / 100 : ℚ) ≤ it.quantity) &&
  decide ((0 : ℚ) ≤ it.rate) &&
  decide ((0 : ℚ) ≤ it.gstRatePercentage) &&
  decide (it.gstRatePercentage ≤ (28 : ℚ))

/-- The zod `schema` of CreateEditInvoice.tsx (lines 21-39). The
`place_of_supply_type` enum admits only Intra-State and Inter-State, the
GSTIN must match the regex or be empty, and
`items: z.array(...).min(1, 'At least one item is required')`. The
`invoice_date` requiredness is carried by the `Int` model of the field. -/
def invoiceFormValid (d : InvoiceFormValues) : Bool :=
  1 ≤ d.customerName.length &&
  (gstinMatch d.customerGstin || d.customerGstin.length = 0) &&
  1 ≤ d.invoiceNumber.length &&
  (d.placeOfSupplyType = SupplyType.intraState ||
    d.placeOfSupplyType = SupplyType.interState) &&
  d.items.all itemValid &&
  1 ≤ d.items.length

/-- The submit pipeline of CreateEditInvoice.tsx: react-hook-form's
`handleSubmit(onSubmit)` with the `zodResolver(schema)` only invokes
`onSubmit` when the schema accepts the form, so an invalid form produces no
stored row at all (`none`); otherwise the row is updated (editing) or
created (new). -/
def handleInvoiceSubmit (existing : Option StoredInvoice) (companyId : Nat)
    (d : InvoiceFormValues) : Option StoredInvoice :=
  if invoiceFormValid d then
    some (match existing with
      | some old => saveInvoiceUpdate old d
      | none => saveInvoiceCreate companyId d)
  else
    none

/-- A row of the `expenses` table, restricted to the columns the claims
touch (the `expenseData` object built in `onSubmit` of
CreateEditExpense.tsx). -/
structure StoredExpense where
  companyId : Nat
  expenseDate : Int
  expenseAccountId : Nat
  amountBeforeGst : ℚ
  gstRateAppliedOnPurchase : ℚ
  gstPaidAmount : ℚ
  totalExpenseAmount : ℚ
  placeOfSupplyTypeForPurchase : SupplyType
  cgstInputCredit : ℚ
  sgstInputCredit : ℚ
  igstInputCredit : ℚ
deriving DecidableEq, Repr

/-- The `expenseData` record built in `onSubmit` of CreateEditExpense.tsx
from its form values via `calculateGSTAmounts`; the same record is used for
both the insert and the update path. -/
def mkExpenseData (companyId : Nat) (expenseDate : Int)
    (expenseAccountId : Nat) (amountBeforeGst gstRate : ℚ)
    (supplyType : SupplyType) : StoredExpense :=
  let r := calculateGSTAmounts amountBeforeGst gstRate supplyType
  { companyId := companyId
    expenseDate := expenseDate
    expenseAccountId := expenseAccountId
    amountBeforeGst := amountBeforeGst
    gstRateAppliedOnPurchase := gstRate
    gstPaidAmount := r.gstPaidAmount
    totalExpenseAmount := r.totalAmount
    placeOfSupplyTypeForPurchase := supplyType
    cgstInputCredit := r.cgstInputCredit
    sgstInputCredit := r.sgstInputCredit
    igstInputCredit := r.igstInputCredit }

/-- A row of the `accounts` table. -/
structure Account where
  id : Nat
  companyId : Nat
  accountName : String
  accountType : AccountType
  isDefault : Bool
deriving DecidableEq, Repr

/-- The P&L invoice query of ProfitLossReport.tsx (`fetchReportData`):
`.eq('company_id', cid).neq('status', 'Draft')
.gte('invoice_date', start).lte('invoice_date', end)`. -/
def plInvoiceSelected (cid : Nat) (startDate endDate : Int)
    (inv : StoredInvoice) : Bool :=
  inv.companyId == cid &&
  !(inv.status == InvoiceStatus.draft) &&
  decide (startDate ≤ inv.invoiceDate) &&
  decide (inv.invoiceDate ≤ endDate)

/-- `totalSales = salesData.reduce((sum, invoice) =>
sum + (invoice.sub_total_amount || 0), 0)` over the selected invoices
(ProfitLossReport.tsx). -/
def totalSales (cid : Nat) (startDate endDate : Int)
    (invoices : List StoredInvoice) : ℚ :=
  ((invoices.filter (plInvoiceSelected cid startDate endDate)).foldl
    (fun sum inv => sum + inv.subTotalAmount) 0)

/-- The per-account expense query of ProfitLossReport.tsx:
`.eq('company_id', cid).eq('expense_account_id', account.id)
.gte('expense_date', start).lte('expense_date', end)`. -/
def plExpenseSelected (cid accountId : Nat) (startDate endDate : Int)
    (ex : StoredExpense) : Bool :=
  ex.companyId == cid &&
  ex.expenseAccountId == accountId &&
  decide (startDate ≤ ex.expenseDate) &&
  decide (ex.expenseDate ≤ endDate)

/-- `total = expenses.reduce((sum, expense) =>
sum + (expense.amount_before_gst || 0), 0)` for one account
(ProfitLossReport.tsx). -/
def accountExpenseTotal (cid : Nat) (startDate endDate : Int) (acct : Account)
    (expenses : List StoredExpense) : ℚ :=
  ((expenses.filter (plExpenseSelected cid acct.id startDate endDate)).foldl
    (fun sum ex => sum + ex.amountBeforeGst) 0)

/-- One entry of `expensesByAccount` (the `AccountSummary` interface of
ProfitLossReport.tsx). -/
structure AccountSummary where
  account : Account
  total : ℚ
deriving DecidableEq, Repr

/-- `expenseSummaries` of ProfitLossReport.tsx: one summary per account of
the company with `account_type = 'Expense'`. The source additionally orders
these accounts by name for display; the ordering does not change any total
and is left to the presentation layer here. -/
def expensesByAccount (cid : Nat) (startDate endDate : Int)
    (accounts : List Account) (expenses : List StoredExpense) :
    List AccountSummary :=
  (accounts.filter (fun a =>
      a.companyId == cid && a.accountType == AccountType.expense)).map
    (fun a =>
      { account := a
        total := accountExpenseTotal cid startDate endDate a expenses })

/-- `totalExpenses = expensesByAccount.reduce((sum, item) =>
sum + item.total, 0)` (ProfitLossReport.tsx). -/
def totalExpensesOfSummaries (summaries : List AccountSummary) : ℚ :=
  summaries.foldl (fun sum s => sum + s.total) 0

/-- `netProfit = totalSales - totalExpenses` (ProfitLossReport.tsx). -/
def netProfit (cid : Nat) (startDate endDate : Int)
    (invoices : List StoredInvoice) (accounts : List Account)
    (expenses : List StoredExpense) : ℚ :=
  totalSales cid startDate endDate invoices -
    totalExpensesOfSummaries (expensesByAccount cid startDate endDate accounts expenses)

/-- The `sales` half of the `GSTSummary` interface of GSTReport.tsx. -/
structure SalesGSTSummary where
  taxableValue : ℚ
  cgst : ℚ
  sgst : ℚ
  igst : ℚ
deriving DecidableEq, Repr

/-- The `purchases` half of the `GSTSummary` interface of GSTReport.tsx. -/
structure PurchaseGSTSummary where
  taxableValue : ℚ
  cgstInput : ℚ
  sgstInput : ℚ
  igstInput : ℚ
deriving DecidableEq, Repr

/-- An invoice row fetched together with its nested `invoice_items`
(the `select` of `fetchGSTData` in GSTReport.tsx). -/
structure InvoiceWithItems where
  invoice : StoredInvoice
  items : List InvoiceItem
deriving DecidableEq, Repr

/-- `salesSummary` of `fetchGSTData` in GSTReport.tsx: over the non-Draft
invoices of the company in range, accumulate `sub_total_amount` into
`taxableValue` and each item's cgst/sgst/igst amounts. -/
def salesGSTSummary (cid : Nat) (startDate endDate : Int)
    (invoices : List InvoiceWithItems) : SalesGSTSummary :=
  (invoices.filter (fun iv =>
      plInvoiceSelected cid startDate endDate iv.invoice)).foldl
    (fun acc iv =>
      let acc1 := { acc with
        taxableValue := acc.taxableValue + iv.invoice.subTotalAmount }
      iv.items.foldl
        (fun a it =>
          { a with
            cgst := a.cgst + it.cgstAmount
            sgst := a.sgst + it.sgstAmount
            igst := a.igst + it.igstAmount })
        acc1)
    { taxableValue := 0, cgst := 0, sgst := 0, igst := 0 }

/-- The expense query of `fetchGSTData` in GSTReport.tsx:
company and date range only (no status filter on expenses). -/
def gstExpenseSelected (cid : Nat) (startDate endDate : Int)
    (ex : StoredExpense) : Bool :=
  ex.companyId == cid &&
  decide (startDate ≤ ex.expenseDate) &&
  decide (ex.expenseDate ≤ endDate)

/-- `purchasesSummary` of `fetchGSTData` in GSTReport.tsx. -/
def purchaseGSTSummary (cid : Nat) (startDate endDate : Int)
    (expenses : List StoredExpense) : PurchaseGSTSummary :=
  (expenses.filter (gstExpenseSelected cid startDate endDate)).foldl
    (fun acc ex =>
      { taxableValue := acc.taxableValue + ex.amountBeforeGst
        cgstInput := acc.cgstInput + ex.cgstInputCredit
        sgstInput := acc.sgstInput + ex.sgstInputCredit
        igstInput := acc.igstInput + ex.igstInputCredit })
    { taxableValue := 0, cgstInput := 0, sgstInput := 0, igstInput := 0 }

/-- The three net tax heads. -/
structure NetGSTPayable where
  cgst : ℚ
  sgst : ℚ
  igst : ℚ
deriving DecidableEq, Repr

/-- `netGSTPayable` of GSTReport.tsx (lines 119-123):
per-head subtraction `sales.head - purchases.headInput`. -/
def netGSTPayable (sales : SalesGSTSummary)
    (purchases : PurchaseGSTSummary) : NetGSTPayable :=
  { cgst := sales.cgst - purchases.cgstInput
    sgst := sales.sgst - purchases.sgstInput
    igst := sales.igst - purchases.igstInput }

/-- A row of the `insert` of the stored procedure
`create_default_accounts` (migration 20250602163649, lines 409-422). -/
structure AccountInsertRow where
  companyId : Nat
  accountName : String
  accountType : AccountType
  isDefault : Bool
deriving DecidableEq, Repr

/-- `create_default_accounts(company_id)`: the six seeded rows, invoked once
per company right after `createCompanyProfile` inserts the profile. -/
def createDefaultAccounts (cid : Nat) : List AccountInsertRow :=
  [ { companyId := cid, accountName := "Sales",
      accountType := AccountType.income, isDefault := true },
    { companyId := cid, accountName := "Purchases/Direct Expenses",
      accountType := AccountType.expense, isDefault := true },
    { companyId := cid, accountName := "Bank Account",
      accountType := AccountType.asset, isDefault := true },
    { companyId := cid, accountName := "Cash in Hand",
      accountType := AccountType.asset, isDefault := true },
    { companyId := cid, accountName := "GST Payable",
      accountType := AccountType.liability, isDefault := true },
    { companyId := cid, accountName := "GST Input Credit",
      accountType := AccountType.asset, isDefault := true } ]

/-- `deleteAccount` of the Chart of Accounts page: the delete is issued with
`.eq('id', id).eq('company_id', cid).eq('is_default', false)`, so only a
non-default row of the company with that id is removed. -/
def deleteAccount (db : List Account) (cid accId : Nat) : List Account :=
  db.filter (fun a =>
    !(a.id == accId && a.companyId == cid && a.isDefault == false))

/-- The update branch of `onSubmit` on the Chart of Accounts page:
`.update({account_name, account_type}).eq('id', editingAccount.id)
.eq('company_id', cid)`. -/
def updateAccount (db : List Account) (cid accId : Nat) (name : String)
    (ty : AccountType) : List Account :=
  db.map (fun a =>
    if a.id == accId && a.companyId == cid then
      { a with accountName := name, accountType := ty }
    else a)

/-- The insert branch of `onSubmit` on the Chart of Accounts page: a new row
with `is_default: false`. -/
def createAccount (db : List Account) (cid freshId : Nat) (name : String)
    (ty : AccountType) : List Account :=
  db ++ [{ id := freshId, companyId := cid, accountName := name,
           accountType := ty, isDefault := false }]

/-- The account operations the Chart of Accounts page offers a user:
add, edit (via the per-row Edit button), delete (via the per-row Delete
button). -/
inductive AccountOp
  | create (freshId : Nat) (name : String) (ty : AccountType)
  | edit (target : Account) (name : String) (ty : AccountType)
  | delete (accId : Nat)
deriving DecidableEq, Repr

/-- One user operation applied to the accounts table. The Edit button of a
row is rendered with `disabled={account.is_default}`
("Default accounts cannot be edited"), so the edit modal is only reachable
for a non-default row of the displayed list; a disabled button leaves the
table unchanged. -/
def applyAccountOp (cid : Nat) (db : List Account) (op : AccountOp) :
    List Account :=
  match op with
  | AccountOp.create freshId name ty => createAccount db cid freshId name ty
  | AccountOp.edit target name ty =>
      if db.contains target && !target.isDefault then
        updateAccount db cid target.id name ty
      else db
  | AccountOp.delete accId => deleteAccount db cid accId

/-! ## Helper lemmas -/

/-- A left fold accumulating `+ f a` is the initial value plus the sum of the
mapped list. -/
lemma foldl_add_eq {α : Type} (f : α → ℚ) (l : List α) (init : ℚ) :
    l.foldl (fun sum a => sum + f a) init = init + (l.map f).sum := by
  induction l generalizing init with
  | nil => simp
  | cons x xs ih =>
      simp only [List.foldl_cons, List.map_cons, List.sum_cons, ih]
      ring

/-! ## Claim theorems -/

/-- Claim C6: for every expense input the expense computer returns
`totalExpenseAmount = amountBeforeGst + gstPaidAmount` for all three supply
types; Not Applicable forces `gstPaidAmount = 0` and all three input-credit
fields to `0`, so `totalExpenseAmount = amountBeforeGst`; in particular
`amountBeforeGst = 1000`, rate 5, Not Applicable yields `gstPaidAmount = 0`
and `totalExpenseAmount = 1000`. -/
theorem expense_total_amount_correct :
    (∀ (a r : ℚ) (st : SupplyType),
        (calculateGSTAmounts a r st).totalAmount
          = a + (calculateGSTAmounts a r st).gstPaidAmount)
    ∧ (∀ (a r : ℚ),
        (calculateGSTAmounts a r SupplyType.notApplicable).gstPaidAmount = 0
        ∧ (calculateGSTAmounts a r SupplyType.notApplicable).cgstInputCredit = 0
        ∧ (calculateGSTAmounts a r SupplyType.notApplicable).sgstInputCredit = 0
        ∧ (calculateGSTAmounts a r SupplyType.notApplicable).igstInputCredit = 0
        ∧ (calculateGSTAmounts a r SupplyType.notApplicable).totalAmount = a)
    ∧ (∀ (cid d acc : Nat) (a r : ℚ) (st : SupplyType),
        (mkExpenseData cid d acc a r st).totalExpenseAmount
          = (mkExpenseData cid d acc a r st).amountBeforeGst
            + (mkExpenseData cid d acc a r st).gstPaidAmount)
    ∧ (calculateGSTAmounts 1000 5 SupplyType.notApplicable).gstPaidAmount = 0
    ∧ (calculateGSTAmounts 1000 5 SupplyType.notApplicable).totalAmount = 1000 := by
  refine ⟨fun a r st => ?_, fun a r => ?_, fun cid d acc a r st => ?_, ?_, ?_⟩
  · cases st <;> simp [calculateGSTAmounts]
  · simp [calculateGSTAmounts]
  · cases st <;> simp [mkExpenseData, calculateGSTAmounts]
  · norm_num [calculateGSTAmounts]
  · norm_num [calculateGSTAmounts]

/-- Claim C2 counterexample: at `baseAmount = 1000`, `ratePercent = 5`,
supply type Not Applicable, the three split components of the expense
splitter sum to `0`, while the claimed value
`baseAmount × ratePercent / 100` is `50`. -/
theorem gst_split_sum_na_counterexample :
    (calculateGSTAmounts 1000 5 SupplyType.notApplicable).cgstInputCredit
        + (calculateGSTAmounts 1000 5 SupplyType.notApplicable).sgstInputCredit
        + (calculateGSTAmounts 1000 5 SupplyType.notApplicable).igstInputCredit
      = 0
    ∧ (1000 * 5 / 100 : ℚ) = 50
    ∧ (0 : ℚ) ≠ 50 := by
  refine ⟨?_, by norm_num, by norm_num⟩
  norm_num [calculateGSTAmounts]

/-- Claim C2 (amended): for every `baseAmount ≥ 0`, `ratePercent ∈ [0, 28]`
and supply type, the three split components sum to the computed
`gstPaidAmount`; for Intra-State and Inter-State this sum equals
`baseAmount × ratePercent / 100`, while for Not Applicable all components
are zero, so the sum is `0` (not `baseAmount × ratePercent / 100`). The
invoice-side splitter satisfies the same identity per line item. -/
theorem gst_split_sum_amended (a r : ℚ) (st : SupplyType)
    (_ha : 0 ≤ a) (_hr0 : 0 ≤ r) (_hr28 : r ≤ 28) :
    ((calculateGSTAmounts a r st).cgstInputCredit
        + (calculateGSTAmounts a r st).sgstInputCredit
        + (calculateGSTAmounts a r st).igstInputCredit
      = (calculateGSTAmounts a r st).gstPaidAmount)
    ∧ (st ≠ SupplyType.notApplicable →
        (calculateGSTAmounts a r st).cgstInputCredit
            + (calculateGSTAmounts a r st).sgstInputCredit
            + (calculateGSTAmounts a r st).igstInputCredit
          = a * r / 100)
    ∧ (st = SupplyType.notApplicable →
        (calculateGSTAmounts a r st).cgstInputCredit
            + (calculateGSTAmounts a r st).sgstInputCredit
            + (calculateGSTAmounts a r st).igstInputCredit
          = 0)
    ∧ (∀ (it : ItemInput) (supply : SupplyType),
        (computeInvoiceItem supply it).cgstAmount
            + (computeInvoiceItem supply it).sgstAmount
            + (computeInvoiceItem supply it).igstAmount
          = if supply = SupplyType.notApplicable then 0
            else (computeInvoiceItem supply it).itemGstTotal) := by
  refine ⟨?_, fun hst => ?_, fun hst => ?_, fun it supply => ?_⟩
  · cases st <;> simp [calculateGSTAmounts]
  · cases st <;> simp_all [calculateGSTAmounts]
  · subst hst; simp [calculateGSTAmounts]
  · cases supply <;> simp [computeInvoiceItem]

/-- Witness for `gst_split_sum_amended` at `baseAmount = 1000`,
`ratePercent = 5`, Intra-State. -/
theorem gst_split_sum_amended_witness :
    (calculateGSTAmounts 1000 5 SupplyType.intraState).cgstInputCredit
        + (calculateGSTAmounts 1000 5 SupplyType.intraState).sgstInputCredit
        + (calculateGSTAmounts 1000 5 SupplyType.intraState).igstInputCredit
      = 1000 * 5 / 100 :=
  (gst_split_sum_amended 1000 5 SupplyType.intraState (by norm_num)
      (by norm_num) (by norm_num)).2.1 (by simp)

/-- Claim C8: an invoice form with an empty line-item list is rejected by the
zod validation (`min(1, 'At least one item is required')`) before any
aggregation or persistence happens: the submit pipeline yields no stored
row. -/
theorem empty_items_rejected (existing : Option StoredInvoice) (cid : Nat)
    (d : InvoiceFormValues) (h : d.items = []) :
    handleInvoiceSubmit existing cid d = none := by
  simp [handleInvoiceSubmit, invoiceFormValid, h]

/-- Witness for `empty_items_rejected` on a concrete form with no items. -/
theorem empty_items_rejected_witness :
    handleInvoiceSubmit none 1
      { customerName := "Acme"
        customerGstin := ""
        invoiceNumber := "INV-1"
        invoiceDate := 0
        dueDate := none
        placeOfSupplyType := SupplyType.intraState
        notes := ""
        items := [] } = none :=
  empty_items_rejected none 1 _ rfl

/-- Claim C10: saving an invoice never modifies its status except at
creation: a newly created invoice is stored with status Draft, and the
update payload of an existing invoice rewrites customer data, dates, supply
type and the recomputed totals but leaves the stored status unchanged. -/
theorem invoice_status_frame :
    (∀ (old : StoredInvoice) (data : InvoiceFormValues),
        (saveInvoiceUpdate old data).status = old.status)
    ∧ (∀ (cid : Nat) (data : InvoiceFormValues),
        (saveInvoiceCreate cid data).status = InvoiceStatus.draft) := by
  exact ⟨fun old data => rfl, fun cid data => rfl⟩

/-- Claim C1: for a line item whose GST rate lies in `[0, 28]`, the splitter
yields `cgst = sgst = gstTotal / 2` and `igst = 0` under Intra-State, and
`igst = gstTotal` with `cgst = sgst = 0` under Inter-State, where
`gstTotal = baseAmount × ratePercent / 100` with `baseAmount` the item
total; in particular for quantity 2, rate 100, GST rate 18 the item total is
200, the GST amount 36, and the splits are (18, 18, 0) with grand total 236
under Intra-State, or (0, 0, 36) with grand total 236 under Inter-State. -/
theorem gst_split_intra_inter_correct (it : ItemInput)
    (_h0 : 0 ≤ it.gstRatePercentage) (_h28 : it.gstRatePercentage ≤ 28) :
    ((computeInvoiceItem SupplyType.intraState it).itemGstTotal
        = it.quantity * it.rate * it.gstRatePercentage / 100
      ∧ (computeInvoiceItem SupplyType.intraState it).cgstAmount
        = (computeInvoiceItem SupplyType.intraState it).itemGstTotal / 2
      ∧ (computeInvoiceItem SupplyType.intraState it).sgstAmount
        = (computeInvoiceItem SupplyType.intraState it).itemGstTotal / 2
      ∧ (computeInvoiceItem SupplyType.intraState it).igstAmount = 0)
    ∧ ((computeInvoiceItem SupplyType.interState it).itemGstTotal
        = it.quantity * it.rate * it.gstRatePercentage / 100
      ∧ (computeInvoiceItem SupplyType.interState it).igstAmount
        = (computeInvoiceItem SupplyType.interState it).itemGstTotal
      ∧ (computeInvoiceItem SupplyType.interState it).cgstAmount = 0
      ∧ (computeInvoiceItem SupplyType.interState it).sgstAmount = 0)
    ∧ ((computeInvoiceItem SupplyType.intraState ⟨"Widget", 2, 100, 18⟩).itemTotalAmount = 200
      ∧ (computeInvoiceItem SupplyType.intraState ⟨"Widget", 2, 100, 18⟩).itemGstTotal = 36
      ∧ (computeInvoiceItem SupplyType.intraState ⟨"Widget", 2, 100, 18⟩).cgstAmount = 18
      ∧ (computeInvoiceItem SupplyType.intraState ⟨"Widget", 2, 100, 18⟩).sgstAmount = 18
      ∧ (computeInvoiceItem SupplyType.intraState ⟨"Widget", 2, 100, 18⟩).igstAmount = 0
      ∧ (invoiceTotals SupplyType.intraState [⟨"Widget", 2, 100, 18⟩]).totalAmount = 236)
    ∧ ((computeInvoiceItem SupplyType.interState ⟨"Widget", 2, 100, 18⟩).cgstAmount = 0
      ∧ (computeInvoiceItem SupplyType.interState ⟨"Widget", 2, 100, 18⟩).sgstAmount = 0
      ∧ (computeInvoiceItem SupplyType.interState ⟨"Widget", 2, 100, 18⟩).igstAmount = 36
      ∧ (invoiceTotals SupplyType.interState [⟨"Widget", 2, 100, 18⟩]).totalAmount = 236) := by
  refine ⟨⟨?_, ?_, ?_, ?_⟩, ⟨?_, ?_, ?_, ?_⟩, ⟨?_, ?_, ?_, ?_, ?_, ?_⟩,
      ⟨?_, ?_, ?_, ?_⟩⟩ <;>
    norm_num [computeInvoiceItem, invoiceTotals, computeItems] <;>
    simp

/-- Witness for `gst_split_intra_inter_correct` at the Scenario A/B item. -/
theorem gst_split_intra_inter_correct_witness :
    (computeInvoiceItem SupplyType.intraState ⟨"Widget", 2, 100, 18⟩).igstAmount = 0 :=
  (gst_split_intra_inter_correct ⟨"Widget", 2, 100, 18⟩ (by norm_num)
      (by norm_num)).1.2.2.2

/-- Claim C3: for every non-empty item list the aggregator satisfies
`grandTotal = subTotal + totalGst` with `subTotal = Σ itemTotal` and
`totalGst = Σ gstAmount`, and both save paths (update and create) store
exactly the totals recomputed from the submitted items — the stored totals
are functions of the form data alone, never of the previous row. -/
theorem invoice_totals_recomputed (supply : SupplyType)
    (items : List ItemInput) (_hne : items ≠ []) (old : StoredInvoice)
    (data : InvoiceFormValues) (cid : Nat) :
    ((invoiceTotals supply items).totalAmount
        = (invoiceTotals supply items).subTotal
          + (invoiceTotals supply items).totalGst)
    ∧ ((invoiceTotals supply items).subTotal
        = ((computeItems supply items).map InvoiceItem.itemTotalAmount).sum)
    ∧ ((invoiceTotals supply items).totalGst
        = ((computeItems supply items).map InvoiceItem.itemGstTotal).sum)
    ∧ (saveInvoiceUpdate old data).subTotalAmount
        = (invoiceTotals data.placeOfSupplyType data.items).subTotal
    ∧ (saveInvoiceUpdate old data).totalGstAmount
        = (invoiceTotals data.placeOfSupplyType data.items).totalGst
    ∧ (saveInvoiceUpdate old data).totalInvoiceAmount
        = (invoiceTotals data.placeOfSupplyType data.items).totalAmount
    ∧ (saveInvoiceCreate cid data).subTotalAmount
        = (invoiceTotals data.placeOfSupplyType data.items).subTotal
    ∧ (saveInvoiceCreate cid data).totalGstAmount
        = (invoiceTotals data.placeOfSupplyType data.items).totalGst
    ∧ (saveInvoiceCreate cid data).totalInvoiceAmount
        = (invoiceTotals data.placeOfSupplyType data.items).totalAmount := by
  refine ⟨rfl, ?_, ?_, rfl, rfl, rfl, rfl, rfl, rfl⟩ <;>
    simp [invoiceTotals, foldl_add_eq]

/-- Witness for `invoice_totals_recomputed` on a one-item list. -/
theorem invoice_totals_recomputed_witness :
    (invoiceTotals SupplyType.intraState [⟨"W", 1, 1, 0⟩]).totalAmount
      = (invoiceTotals SupplyType.intraState [⟨"W", 1, 1, 0⟩]).subTotal
        + (invoiceTotals SupplyType.intraState [⟨"W", 1, 1, 0⟩]).totalGst :=
  (invoice_totals_recomputed SupplyType.intraState [⟨"W", 1, 1, 0⟩]
      (by simp)
      { companyId := 1, customerName := "A", customerGstin := none,
        invoiceNumber := "INV-1", invoiceDate := 0, dueDate := none,
        placeOfSupplyType := SupplyType.intraState, notes := none,
        subTotalAmount := 0, totalGstAmount := 0, totalInvoiceAmount := 0,
        status := InvoiceStatus.draft }
      { customerName := "A", customerGstin := "", invoiceNumber := "INV-1",
        invoiceDate := 0, dueDate := none,
        placeOfSupplyType := SupplyType.intraState, notes := "",
        items := [⟨"W", 1, 1, 0⟩] }
      1).1

/-- Claim C7: the invoice aggregator is invariant under permutation of a
non-empty item list: permuted lists yield the same subtotal, total GST and
grand total. -/
theorem invoice_totals_perm_invariant (supply : SupplyType)
    (l₁ l₂ : List ItemInput) (hperm : l₁.Perm l₂) (_hne : l₁ ≠ []) :
    invoiceTotals supply l₁ = invoiceTotals supply l₂ := by
  have hm : (computeItems supply l₁).Perm (computeItems supply l₂) :=
    hperm.map _
  have hsum : ∀ f : InvoiceItem → ℚ,
      ((computeItems supply l₁).map f).sum
        = ((computeItems supply l₂).map f).sum :=
    fun f => (hm.map f).sum_eq
  simp only [invoiceTotals, foldl_add_eq, zero_add,
    hsum InvoiceItem.itemTotalAmount, hsum InvoiceItem.itemGstTotal]

/-- Witness for `invoice_totals_perm_invariant` on a two-item swap. -/
theorem invoice_totals_perm_invariant_witness :
    invoiceTotals SupplyType.intraState [⟨"A", 1, 10, 18⟩, ⟨"B", 2, 5, 12⟩]
      = invoiceTotals SupplyType.intraState
          [⟨"B", 2, 5, 12⟩, ⟨"A", 1, 10, 18⟩] :=
  invoice_totals_perm_invariant SupplyType.intraState _ _
    (List.Perm.swap _ _ _) (by simp)

/-- A Sent invoice with subtotal 500 in range (Scenario D). -/
def plScenSent : StoredInvoice :=
  { companyId := 1, customerName := "Ravi", customerGstin := none,
    invoiceNumber := "INV-10", invoiceDate := 10, dueDate := none,
    placeOfSupplyType := SupplyType.intraState, notes := none,
    subTotalAmount := 500, totalGstAmount := 90, totalInvoiceAmount := 590,
    status := InvoiceStatus.sent }

/-- A Draft invoice with subtotal 9999 in range (Scenario D). -/
def plScenDraft : StoredInvoice :=
  { plScenSent with subTotalAmount := 9999, status := InvoiceStatus.draft }

/-- An Expense-type account used in the P&L scenarios. -/
def plScenAccount : Account :=
  { id := 2, companyId := 1, accountName := "Purchases/Direct Expenses",
    accountType := AccountType.expense, isDefault := true }

/-- An expense of 100 before GST tagged to `plScenAccount`, in range. -/
def plScenExpense : StoredExpense :=
  mkExpenseData 1 10 2 100 0 SupplyType.notApplicable

/-- Claim C4: the P&L report computes `totalSales` as the sum of
`sub_total_amount` over non-Draft invoices of the company in range,
per-account expense totals as the sum of `amount_before_gst` of expenses in
range tagged to the account, and `netProfit = totalSales − Σ account
totals`, unclamped; Scenario D (one Sent invoice at 500 plus one Draft at
9999 in range) yields `totalSales = 500`, and a period with no sales and
100 of expenses yields the negative `netProfit = −100`. -/
theorem profit_loss_totals_correct :
    (∀ (cid : Nat) (s e : Int) (invoices : List StoredInvoice),
        totalSales cid s e invoices
          = ((invoices.filter (plInvoiceSelected cid s e)).map
              StoredInvoice.subTotalAmount).sum)
    ∧ (∀ (cid : Nat) (s e : Int) (acct : Account)
          (expenses : List StoredExpense),
        accountExpenseTotal cid s e acct expenses
          = ((expenses.filter (plExpenseSelected cid acct.id s e)).map
              StoredExpense.amountBeforeGst).sum)
    ∧ (∀ (summaries : List AccountSummary),
        totalExpensesOfSummaries summaries
          = (summaries.map AccountSummary.total).sum)
    ∧ (∀ (cid : Nat) (s e : Int) (invoices : List StoredInvoice)
          (accounts : List Account) (expenses : List StoredExpense),
        netProfit cid s e invoices accounts expenses
          = totalSales cid s e invoices
            - totalExpensesOfSummaries
                (expensesByAccount cid s e accounts expenses))
    ∧ totalSales 1 0 30 [plScenSent, plScenDraft] = 500
    ∧ netProfit 1 0 30 [] [plScenAccount] [plScenExpense] = -100
    ∧ ((-100 : ℚ) < 0) := by
  refine ⟨fun cid s e invoices => ?_, fun cid s e acct expenses => ?_,
      fun summaries => ?_, fun cid s e invoices accounts expenses => rfl,
      ?_, ?_, by norm_num⟩
  · simp [totalSales, foldl_add_eq]
  · simp [accountExpenseTotal, foldl_add_eq]
  · simp [totalExpensesOfSummaries, foldl_add_eq]
  · simp +decide [totalSales, plInvoiceSelected, plScenSent, plScenDraft,
      List.filter_cons, List.filter_nil]
  · simp +decide [netProfit, totalSales, plInvoiceSelected,
      expensesByAccount, totalExpensesOfSummaries, accountExpenseTotal,
      plExpenseSelected, plScenAccount, plScenExpense, mkExpenseData,
      calculateGSTAmounts, List.filter_cons, List.filter_nil]

/-- Folding the per-item GST accumulation of `fetchGSTData` over an item
list adds the per-head item sums, leaving the taxable value untouched. -/
lemma sales_items_foldl (items : List InvoiceItem) (acc : SalesGSTSummary) :
    items.foldl (fun a it =>
        { a with
          cgst := a.cgst + it.cgstAmount
          sgst := a.sgst + it.sgstAmount
          igst := a.igst + it.igstAmount }) acc
      = { taxableValue := acc.taxableValue
          cgst := acc.cgst + (items.map InvoiceItem.cgstAmount).sum
          sgst := acc.sgst + (items.map InvoiceItem.sgstAmount).sum
          igst := acc.igst + (items.map InvoiceItem.igstAmount).sum } := by
  induction items generalizing acc with
  | nil => simp
  | cons x xs ih =>
      simp only [List.foldl_cons, List.map_cons, List.sum_cons, ih, add_assoc]

/-- Folding the per-invoice step of `fetchGSTData` over an invoice list adds
the subtotal sum to the taxable value and the per-head item sums to the tax
heads. -/
lemma sales_invoices_foldl (l : List InvoiceWithItems)
    (acc : SalesGSTSummary) :
    l.foldl (fun acc iv =>
        iv.items.foldl (fun a it =>
            { a with
              cgst := a.cgst + it.cgstAmount
              sgst := a.sgst + it.sgstAmount
              igst := a.igst + it.igstAmount })
          { acc with
            taxableValue := acc.taxableValue + iv.invoice.subTotalAmount })
      acc
      = { taxableValue := acc.taxableValue
            + (l.map (fun iv => iv.invoice.subTotalAmount)).sum
          cgst := acc.cgst
            + (l.map (fun iv => (iv.items.map InvoiceItem.cgstAmount).sum)).sum
          sgst := acc.sgst
            + (l.map (fun iv => (iv.items.map InvoiceItem.sgstAmount).sum)).sum
          igst := acc.igst
            + (l.map (fun iv => (iv.items.map InvoiceItem.igstAmount).sum)).sum } := by
  induction l generalizing acc with
  | nil => simp
  | cons x xs ih =>
      rw [List.foldl_cons, sales_items_foldl, ih]
      simp [List.map_cons, List.sum_cons, add_assoc]

/-- `salesSummary` of `fetchGSTData`, characterised as per-field sums over
the filtered invoice list. -/
lemma salesGSTSummary_char (cid : Nat) (s e : Int)
    (invs : List InvoiceWithItems) :
    salesGSTSummary cid s e invs
      = { taxableValue :=
            ((invs.filter (fun iv => plInvoiceSelected cid s e iv.invoice)).map
              (fun iv => iv.invoice.subTotalAmount)).sum
          cgst :=
            ((invs.filter (fun iv => plInvoiceSelected cid s e iv.invoice)).map
              (fun iv => (iv.items.map InvoiceItem.cgstAmount).sum)).sum
          sgst :=
            ((invs.filter (fun iv => plInvoiceSelected cid s e iv.invoice)).map
              (fun iv => (iv.items.map InvoiceItem.sgstAmount).sum)).sum
          igst :=
            ((invs.filter (fun iv => plInvoiceSelected cid s e iv.invoice)).map
              (fun iv => (iv.items.map InvoiceItem.igstAmount).sum)).sum } := by
  simp [salesGSTSummary, sales_invoices_foldl]

/-- Folding the per-expense step of `fetchGSTData` adds the four column sums
to the accumulator. -/
lemma purchase_expenses_foldl (l : List StoredExpense)
    (acc : PurchaseGSTSummary) :
    l.foldl (fun acc ex =>
        { taxableValue := acc.taxableValue + ex.amountBeforeGst
          cgstInput := acc.cgstInput + ex.cgstInputCredit
          sgstInput := acc.sgstInput + ex.sgstInputCredit
          igstInput := acc.igstInput + ex.igstInputCredit })
      acc
      = { taxableValue := acc.taxableValue
            + (l.map StoredExpense.amountBeforeGst).sum
          cgstInput := acc.cgstInput
            + (l.map StoredExpense.cgstInputCredit).sum
          sgstInput := acc.sgstInput
            + (l.map StoredExpense.sgstInputCredit).sum
          igstInput := acc.igstInput
            + (l.map StoredExpense.igstInputCredit).sum } := by
  induction l generalizing acc with
  | nil => simp
  | cons x xs ih =>
      simp only [List.foldl_cons, List.map_cons, List.sum_cons, ih, add_assoc]

/-- `purchasesSummary` of `fetchGSTData`, characterised as per-field sums
over the filtered expense list. -/
lemma purchaseGSTSummary_char (cid : Nat) (s e : Int)
    (exps : List StoredExpense) :
    purchaseGSTSummary cid s e exps
      = { taxableValue :=
            ((exps.filter (gstExpenseSelected cid s e)).map
              StoredExpense.amountBeforeGst).sum
          cgstInput :=
            ((exps.filter (gstExpenseSelected cid s e)).map
              StoredExpense.cgstInputCredit).sum
          sgstInput :=
            ((exps.filter (gstExpenseSelected cid s e)).map
              StoredExpense.sgstInputCredit).sum
          igstInput :=
            ((exps.filter (gstExpenseSelected cid s e)).map
              StoredExpense.igstInputCredit).sum } := by
  simp [purchaseGSTSummary, purchase_expenses_foldl]

/-- A Sent invoice of the GST-summary scenario, holding one Intra-State item
whose CGST is 18. -/
def gstScenInvoice : StoredInvoice :=
  { companyId := 1, customerName := "Meera", customerGstin := none,
    invoiceNumber := "INV-11", invoiceDate := 10, dueDate := none,
    placeOfSupplyType := SupplyType.intraState, notes := none,
    subTotalAmount := 200, totalGstAmount := 36, totalInvoiceAmount := 236,
    status := InvoiceStatus.sent }

/-- The sales side of the GST-summary scenario. -/
def gstScenSales : List InvoiceWithItems :=
  [{ invoice := gstScenInvoice,
     items := [computeInvoiceItem SupplyType.intraState ⟨"Widget", 2, 100, 18⟩] }]

/-- The purchase side of the GST-summary scenario: an Intra-State expense of
800 at 5% GST, so its CGST input credit is 20. -/
def gstScenExpenses : List StoredExpense :=
  [mkExpenseData 1 10 2 800 5 SupplyType.intraState]

/-- Claim C5: the GST summary computes, per tax head,
`netPayable.head = salesGst.head − purchasesInputCredit.head`, where the
sales side sums the head over all line items of non-Draft invoices of the
company in range and the purchase side sums the input-credit column over
all expenses in range; the sign is preserved — the scenario with
`salesGst.cgst = 18` and `purchasesInputCredit.cgst = 20` yields
`netPayable.cgst = −2`, not a clamped or absolute value. -/
theorem gst_summary_net_payable_correct :
    (∀ (sales : SalesGSTSummary) (purchases : PurchaseGSTSummary),
        (netGSTPayable sales purchases).cgst = sales.cgst - purchases.cgstInput
        ∧ (netGSTPayable sales purchases).sgst = sales.sgst - purchases.sgstInput
        ∧ (netGSTPayable sales purchases).igst = sales.igst - purchases.igstInput)
    ∧ (∀ (cid : Nat) (s e : Int) (invs : List InvoiceWithItems),
        (salesGSTSummary cid s e invs).cgst
            = ((invs.filter (fun iv => plInvoiceSelected cid s e iv.invoice)).map
                (fun iv => (iv.items.map InvoiceItem.cgstAmount).sum)).sum
        ∧ (salesGSTSummary cid s e invs).sgst
            = ((invs.filter (fun iv => plInvoiceSelected cid s e iv.invoice)).map
                (fun iv => (iv.items.map InvoiceItem.sgstAmount).sum)).sum
        ∧ (salesGSTSummary cid s e invs).igst
            = ((invs.filter (fun iv => plInvoiceSelected cid s e iv.invoice)).map
                (fun iv => (iv.items.map InvoiceItem.igstAmount).sum)).sum)
    ∧ (∀ (cid : Nat) (s e : Int) (exps : List StoredExpense),
        (purchaseGSTSummary cid s e exps).cgstInput
            = ((exps.filter (gstExpenseSelected cid s e)).map
                StoredExpense.cgstInputCredit).sum
        ∧ (purchaseGSTSummary cid s e exps).sgstInput
            = ((exps.filter (gstExpenseSelected cid s e)).map
                StoredExpense.sgstInputCredit).sum
        ∧ (purchaseGSTSummary cid s e exps).igstInput
            = ((exps.filter (gstExpenseSelected cid s e)).map
                StoredExpense.igstInputCredit).sum)
    ∧ (salesGSTSummary 1 0 30 gstScenSales).cgst = 18
    ∧ (purchaseGSTSummary 1 0 30 gstScenExpenses).cgstInput = 20
    ∧ (netGSTPayable (salesGSTSummary 1 0 30 gstScenSales)
        (purchaseGSTSummary 1 0 30 gstScenExpenses)).cgst = -2 := by
  refine ⟨fun sales purchases => ⟨rfl, rfl, rfl⟩,
      fun cid s e invs => ?_, fun cid s e exps => ?_, ?_, ?_, ?_⟩
  · simp [salesGSTSummary_char]
  · simp [purchaseGSTSummary_char]
  · simp +decide [salesGSTSummary, plInvoiceSelected, gstScenSales,
      gstScenInvoice, computeInvoiceItem, List.filter_cons, List.filter_nil]
    norm_num
  · simp +decide [purchaseGSTSummary, gstExpenseSelected, gstScenExpenses,
      mkExpenseData, calculateGSTAmounts, List.filter_cons, List.filter_nil]
    norm_num
  · simp +decide [netGSTPayable, salesGSTSummary, purchaseGSTSummary,
      plInvoiceSelected, gstExpenseSelected, gstScenSales, gstScenInvoice,
      gstScenExpenses, computeInvoiceItem, mkExpenseData,
      calculateGSTAmounts, List.filter_cons, List.filter_nil]
    norm_num

/-- Claim C9: exactly six default accounts are seeded per company at
company creation (all marked `is_default` and owned by that company), and a
default account survives every user operation untouched: the delete query
carries `.eq('is_default', false)`, the Edit button is disabled for default
rows, and creating an account only appends a non-default row. The id-Nodup
hypothesis is the primary-key uniqueness of the `accounts` table. -/
theorem default_accounts_seed_and_protection :
    (∀ cid : Nat, (createDefaultAccounts cid).length = 6)
    ∧ (∀ (cid : Nat) (r : AccountInsertRow), r ∈ createDefaultAccounts cid →
        r.isDefault = true ∧ r.companyId = cid)
    ∧ (∀ (db : List Account) (cid accId : Nat) (a : Account),
        a ∈ db → a.isDefault = true → a ∈ deleteAccount db cid accId)
    ∧ (∀ (cid : Nat) (db : List Account) (op : AccountOp) (a : Account),
        (db.map Account.id).Nodup → a ∈ db → a.isDefault = true →
        a ∈ applyAccountOp cid db op) := by
  have hdel : ∀ (db : List Account) (cid accId : Nat) (a : Account),
      a ∈ db → a.isDefault = true → a ∈ deleteAccount db cid accId := by
    intro db cid accId a ha hdef
    refine List.mem_filter.mpr ⟨ha, ?_⟩
    simp [hdef]
  refine ⟨fun cid => rfl, ?_, hdel, ?_⟩
  · intro cid r hr
    simp only [createDefaultAccounts, List.mem_cons, List.not_mem_nil,
      or_false] at hr
    rcases hr with rfl | rfl | rfl | rfl | rfl | rfl <;> exact ⟨rfl, rfl⟩
  · intro cid db op a hnodup ha hdef
    cases op with
    | create freshId name ty =>
        simp [applyAccountOp, createAccount, ha]
    | delete accId => exact hdel db cid accId a ha hdef
    | edit target name ty =>
        simp only [applyAccountOp]
        split
        case isTrue hc =>
          have hparts := Bool.and_eq_true_iff.mp hc
          have htin : target ∈ db := by
            have h1 := hparts.1
            simpa using h1
          have htdef : target.isDefault = false := by
            have h2 := hparts.2
            simpa using h2
          have hne : a ≠ target := by
            intro h
            rw [h, htdef] at hdef
            exact Bool.false_ne_true hdef
          have hid : a.id ≠ target.id := fun h =>
            hne (List.inj_on_of_nodup_map hnodup ha htin h)
          refine List.mem_map.mpr ⟨a, ha, ?_⟩
          simp [hid]
        case isFalse hc => exact ha

/-- Witness for `default_accounts_seed_and_protection`: a concrete default
account survives a delete aimed at its own id. -/
theorem default_accounts_seed_and_protection_witness :
    ({ id := 1, companyId := 1, accountName := "Sales",
       accountType := AccountType.income, isDefault := true } : Account)
      ∈ applyAccountOp 1
          [{ id := 1, companyId := 1, accountName := "Sales",
             accountType := AccountType.income, isDefault := true }]
          (AccountOp.delete 1) :=
  default_accounts_seed_and_protection.2.2.2 1 _ (AccountOp.delete 1) _
    (by simp) (by simp) rfl

end AccBooks
